import Mathlib

/-!
# Verification of the ax1-services automation lambdas

A shallow embedding of the decision logic of the `ax1-services` repository:

* the 2Captcha fallback poll loop (`src/infrastructure/utils/captcha.ts`,
  `solveCaptcha2Captcha`);
* the DIAN token-email outcome poller and modal guard
  (`src/application/generate-dian-token-email.ts`: `waitForResultMessage`,
  `setupModalGuards`, `readModalError`, `extractErrorMessage`,
  `validatePayload`, `handle`) and its lambda handler
  (`lambdas/generate-dian-token-email.ts`);
* the RUES registry search (`src/application/get-rues-data.ts`:
  `searchByIdentification`, `verifyResults`, `getCardStatusActive`,
  `extractBasicInfo`, `extractInformation`) and its lambda handler
  (`lambdas/get-rues-data.ts`).

Browser/DOM reads are modelled by explicit page-state records: one field per
DOM query the code performs.  JavaScript string truthiness, `String(...)`
coercion and nullish coalescing are modelled explicitly.
-/

/-- Small model of the JavaScript values that reach the lambda handlers'
coercion sites (`String(x)`, truthiness, `normalizeBoolean`). -/
inductive JsVal
  | undef
  | nullv
  | boolv (b : Bool)
  | strv (s : String)
deriving Repr, DecidableEq

/-- JavaScript `String(x)` on the values of `JsVal`
(`String(undefined) = "undefined"`, `String(null) = "null"`). -/
def jsToString : JsVal → String
  | .undef => "undefined"
  | .nullv => "null"
  | .boolv b => if b then "true" else "false"
  | .strv s => s

/-- JS truthiness filter on a nullable string: `null`/`undefined` and the
empty string are falsy; any other string passes through. -/
def jsTruthy : Option String → Option String
  | some s => if s = "" then none else some s
  | none => none

/-- Whether `pat` is an initial segment of `l`. -/
def startsWithList : List Char → List Char → Bool
  | _, [] => true
  | [], _ :: _ => false
  | a :: as, b :: bs => a = b && startsWithList as bs

/-- Whether `pat` occurs as a contiguous segment of `hay`. -/
def containsList : List Char → List Char → Bool
  | [], pat => startsWithList [] pat
  | a :: rest, pat => startsWithList (a :: rest) pat || containsList rest pat

/-- JS `haystack.includes(needle)`. -/
def strContains (haystack needle : String) : Bool :=
  containsList haystack.data needle.data

/-- JS `s.trim()`: strip leading and trailing whitespace. -/
def jsTrim (s : String) : String :=
  String.mk
    (((s.data.dropWhile Char.isWhitespace).reverse.dropWhile
      Char.isWhitespace).reverse)

/-- JS `s.toLowerCase()` restricted to the ASCII range the code relies
on. -/
def jsToLower (s : String) : String :=
  String.mk (s.data.map Char.toLower)

/-- JS object property write (`obj[k] = v`): later writes shadow earlier
ones; reads via `objGet` take the latest write. -/
def objSet (m : List (String × String)) (k v : String) : List (String × String) :=
  m ++ [(k, v)]

/-- JS object property read, honouring the shadowing of `objSet`. -/
def objGet (m : List (String × String)) (k : String) : Option String :=
  (m.reverse.find? (fun p => p.1 == k)).map (·.2)

/- ### Challenge solver: 2Captcha status polling (`solveCaptcha2Captcha`) -/

/-- Outcome of one request to the 2Captcha `res.php` status endpoint, as
seen by the code: `status === 1` with a token, any other status payload
("not ready"), or a thrown request exception. -/
inductive PollStep
  | okTok (tok : String)
  | notReady
  | errExn
deriving Repr, DecidableEq

/-- External behaviour of 2Captcha for one solve: whether the `in.php`
submission returned `status === 1`, and the response to the k-th status
poll request. -/
structure TwoCaptchaEnv where
  submitOk : Bool
  responses : Nat → PollStep

/-- The polling loop of `solveCaptcha2Captcha` (captcha.ts lines 69-97).
`attempts` mirrors the JS counter (incremented only on a "not ready"
response); `now` is the elapsed time in milliseconds/1000*7 units at which
the current poll fires; `fuel` bounds the recursion (the JS loop runs while
`attempts < 15`, and `attempts` grows on every iteration that continues, so
fuel 15 is exact).  Returns the solution (if any) and the list of times at
which poll requests were issued.  A thrown poll exception (`errExn`)
executes the `catch` branch, which `break`s out of the loop with no
solution. -/
def pollGo (responses : Nat → PollStep) : Nat → Nat → Nat → Option String × List Nat
  | _, _, 0 => (none, [])
  | attempts, now, fuel + 1 =>
    if attempts < 15 then
      match responses attempts with
      | .okTok tok => (some tok, [now])
      | .notReady =>
        ((pollGo responses (attempts + 1) (now + 7) fuel).1,
          now :: (pollGo responses (attempts + 1) (now + 7) fuel).2)
      | .errExn => (none, [now])
    else (none, [])

/-- `solveCaptcha2Captcha` after the submission step: if `in.php` did not
report success the function returns `null` without polling; otherwise it
runs the poll loop. -/
def solveCaptcha2Captcha (env : TwoCaptchaEnv) : Option String × List Nat :=
  if env.submitOk then pollGo env.responses 0 0 15 else (none, [])

/-- The behaviour the spec sentence ascribes to poll failures: an exception
on a poll request is handled as if the service had answered "not yet
ready". -/
def exnAsNotReady (responses : Nat → PollStep) : Nat → PollStep :=
  fun k => match responses k with
    | .errExn => .notReady
    | s => s

/-- Concrete 2Captcha behaviour: the first status poll throws, the second
would report the solved token. -/
def cexTwoCaptchaEnv : TwoCaptchaEnv :=
  { submitOk := true
    responses := fun k => if k = 1 then .okTok "tok" else .errExn }

/- ### DIAN token-email flow: modal guard state and the outcome poller -/

/-- The in-page observer state `window.__dianModalState` installed by
`setupModalGuards`: the last captured modal error and the log of navigation
calls (`assign`/`replace`/`reload`) suppressed while the modal was
visible. -/
structure ModalGuardState where
  lastError : Option String
  blockedRedirects : List String
deriving Repr, DecidableEq

/-- One poll tick's view of the DIAN page: one field per DOM read performed
by `waitForResultMessage` and its helpers.  `modalPresent` is whether
`page.$('#errorModal')` finds a handle; the three `modal*` booleans feed
the visibility policy `(display !== 'none' || classList.contains('in')) &&
aria-hidden !== 'true'`.  The `*Present`/`*Text` pairs model
`page.$(selector)` plus `innerText`. -/
structure DianTick where
  storedError : Option String
  modalState : Option ModalGuardState
  modalPresent : Bool
  modalDisplayNone : Bool
  modalHasInClass : Bool
  modalAriaHiddenTrue : Bool
  modalTitle : String
  modalMessage : String
  successPresent : Bool
  successText : String
  errorAlertPresent : Bool
  errorAlertText : String
  toastPresent : Bool
  toastText : String
  bodyText : String
  pageClosed : Bool
  selectionButtonPresent : Bool
  selectionButtonVisible : Bool
deriving Repr, DecidableEq

/-- The `#errorModal` visibility policy shared by the init script and
`readModalError`. -/
def modalIsVisible (t : DianTick) : Bool :=
  (!t.modalDisplayNone || t.modalHasInClass) && !t.modalAriaHiddenTrue

/-- `readModalError`: `null` when the modal handle is absent or the modal
is not visible; otherwise title and message joined with " - ", with a
generic fallback when both are empty. -/
def readModalError (t : DianTick) : Option String :=
  if !t.modalPresent then none
  else if !modalIsVisible t then none
  else
    let text := String.intercalate " - "
      (([jsTrim t.modalTitle, jsTrim t.modalMessage]).filter (fun s => s ≠ ""))
    some (if text = "" then "Se presentó un error en el portal de la DIAN." else text)

/-- `extractErrorMessage`: first non-empty trimmed text among the
error-alert and toast elements, else a credentials hint when the page body
mentions "credenciales" or "incorrect", else `null`. -/
def extractErrorMessage (t : DianTick) : Option String :=
  if t.errorAlertPresent && jsTrim t.errorAlertText ≠ "" then
    some (jsTrim t.errorAlertText)
  else if t.toastPresent && jsTrim t.toastText ≠ "" then
    some (jsTrim t.toastText)
  else if strContains t.bodyText "credenciales" || strContains t.bodyText "incorrect" then
    some "Verifique las credenciales de inicio de sesión."
  else none

/-- The non-empty trimmed success-alert text read in the success branch of
the poll loop, when the element exists. -/
def successMessage (t : DianTick) : Option String :=
  if t.successPresent && jsTrim t.successText ≠ "" then
    some (jsTrim t.successText)
  else none

/-- Result of one iteration of `waitForResultMessage`'s loop: resolve with
the success message, throw with an error message, or sleep 100ms and poll
again. -/
inductive TickOutcome
  | success (msg : String)
  | failure (msg : String)
  | pending
deriving Repr, DecidableEq

/-- The substring by which the poller recognises a destroyed
page/context. -/
def targetClosedMsg : String := "Target page, context or browser has been closed"

/-- One iteration of the loop of `waitForResultMessage` (generate-dian-
token-email lines 429-513), with `le` the `lastModalError` carried in from
earlier iterations.  Checks in source order: (1) the persisted
sessionStorage error (JS-truthy); (2) the live observer `lastError`
(JS-truthy); (3) blocked-redirect growth is only logged; (4)
`readModalError`; (5) the success alert — returned if non-empty; (6)
`extractErrorMessage` — its result is rethrown *inside* the same `try`, so
its own `catch` swallows it (console.warn) unless the text contains the
destroyed-page marker, in which case the poller fails with
`lastModalError ?? reload message`; (7) `page.isClosed()`; (8) the
return-to-selection check — every `throw` it performs is inside the
surrounding `try`, whose `catch` only warns, so it never resolves the
tick. -/
def pollTick (le : Option String) (t : DianTick) : TickOutcome :=
  match jsTruthy t.storedError with
  | some e => .failure e
  | none =>
    match jsTruthy (t.modalState.bind (fun st => st.lastError)) with
    | some e => .failure e
    | none =>
      match readModalError t with
      | some e => .failure e
      | none =>
        match successMessage t with
        | some m => .success m
        | none =>
          match extractErrorMessage t with
          | some e =>
            if strContains e targetClosedMsg then
              .failure (le.getD "La página de la DIAN se recargó antes de obtener respuesta. Verifique el estado del portal e intente nuevamente.")
            else .pending
          | none =>
            if t.pageClosed then
              .failure (le.getD "La página de la DIAN se cerró antes de obtener respuesta. Verifique los datos e intente nuevamente.")
            else .pending

/-- The error signals that make the poller fail before it ever reads the
success alert: persisted observer error, live observer error, visible
error modal — in that order. -/
def strongErrorSignal (t : DianTick) : Option String :=
  match jsTruthy t.storedError with
  | some e => some e
  | none =>
    match jsTruthy (t.modalState.bind (fun st => st.lastError)) with
    | some e => some e
    | none => readModalError t

/-- The error-signal predicate as the claim states it: persisted observer
error, live observer error, visible error modal, **or** non-empty
error-alert/toast text. -/
def claimErrorSignal (t : DianTick) : Bool :=
  (strongErrorSignal t).isSome ||
    (t.errorAlertPresent && jsTrim t.errorAlertText ≠ "") ||
    (t.toastPresent && jsTrim t.toastText ≠ "")

/-- A tick in which an error-alert text and a success message are present
simultaneously, and nothing else. -/
def cexTick : DianTick :=
  { storedError := none
    modalState := some { lastError := none, blockedRedirects := [] }
    modalPresent := false
    modalDisplayNone := true
    modalHasInClass := false
    modalAriaHiddenTrue := false
    modalTitle := ""
    modalMessage := ""
    successPresent := true
    successText := "Se ha enviado el código de acceso al correo registrado."
    errorAlertPresent := true
    errorAlertText := "Datos de acceso incorrectos."
    toastPresent := false
    toastText := ""
    bodyText := ""
    pageClosed := false
    selectionButtonPresent := false
    selectionButtonVisible := false }

/- ### Modal-guard installation (`setupModalGuards` init script) -/

/-- The observable page state the init script of `setupModalGuards` touches:
the `window.__dianModalState` marker/state object, the persisted
sessionStorage error, whether the navigation primitives are intercepted,
the modal DOM fields the script reads, and — because the script defers its
`setup` to `DOMContentLoaded` while the document is still loading — the
document ready state and the number of deferred `setup` listeners. -/
structure GuardPage where
  modalState : Option ModalGuardState
  storedError : Option String
  navIntercepted : Bool
  loading : Bool
  pendingSetups : Nat
  modalPresent : Bool
  modalDisplayNone : Bool
  modalHasInClass : Bool
  modalAriaHiddenTrue : Bool
  modalTitle : String
  modalMessage : String
deriving Repr, DecidableEq

/-- The modal-visibility policy of the init script (same expression as
`readModalError`'s, over the page's modal fields).  The init script does
not check element presence: `document.querySelector` returning `null`
makes `isModalVisible` return `false`. -/
def guardModalVisible (p : GuardPage) : Bool :=
  p.modalPresent &&
    ((!p.modalDisplayNone || p.modalHasInClass) && !p.modalAriaHiddenTrue)

/-- The modal text captured by `captureModal`: title and message joined
with " - ", generic fallback if both empty. -/
def guardModalText (p : GuardPage) : String :=
  let text := String.intercalate " - "
    (([jsTrim p.modalTitle, jsTrim p.modalMessage]).filter (fun s => s ≠ ""))
  if text = "" then "Se presentó un error en el portal de la DIAN." else text

/-- The `setup` closure of the init script: create a fresh state object,
publish it as `window.__dianModalState`, seed `lastError` from the
persisted sessionStorage value (if truthy), run `captureModal` once (which,
if the modal is visible, records and persists its text), and wrap the
three navigation primitives. -/
def setupOnce (p : GuardPage) : GuardPage :=
  let seeded := jsTruthy p.storedError
  if guardModalVisible p then
    { p with
        modalState := some { lastError := some (guardModalText p), blockedRedirects := [] }
        storedError := some (guardModalText p)
        navIntercepted := true }
  else
    { p with
        modalState := some { lastError := seeded, blockedRedirects := [] }
        navIntercepted := true }

/-- Run `n` deferred `setup` listeners in registration order. -/
def setupIter : Nat → GuardPage → GuardPage
  | 0, p => p
  | n + 1, p => setupIter n (setupOnce p)

/-- One execution of the `setupModalGuards` init script: a no-op when the
`window.__dianModalState` marker already exists; otherwise it either runs
`setup` immediately or, while the document is loading, registers it as a
one-shot `DOMContentLoaded` listener. -/
def setupModalGuards (p : GuardPage) : GuardPage :=
  match p.modalState with
  | some _ => p
  | none =>
    if p.loading then { p with pendingSetups := p.pendingSetups + 1 }
    else setupOnce p

/-- The `DOMContentLoaded` event: runs every deferred `setup` listener and
marks the document as loaded. -/
def domContentLoaded (p : GuardPage) : GuardPage :=
  if p.loading then
    { setupIter p.pendingSetups p with loading := false, pendingSetups := 0 }
  else p

/- ### DIAN token-email payload validation, flow and lambda handler -/

/-- `DianTokenEmailPayload` (src/domain/dian/interfaces.ts).  The three
required fields are strings; the missing/empty case is the JS-falsy empty
string (the handler coerces absent event fields to `''`). -/
structure DianTokenEmailPayload where
  identificationType : String
  userCode : String
  companyCode : String
  origin : Option String
  headless : Bool
deriving Repr, DecidableEq

/-- `DianTokenEmailResult` (src/domain/dian/interfaces.ts). -/
structure DianTokenEmailResult where
  success : Bool
  message : Option String
  error : Option String
  origin : Option String
  screenshot : Option String
deriving Repr, DecidableEq

/-- The `missingFields` list accumulated by `validatePayload`: one entry
per JS-falsy required field, in source order. -/
def missingFields (p : DianTokenEmailPayload) : List String :=
  (if p.identificationType = "" then ["identificationType"] else []) ++
    (if p.userCode = "" then ["userCode"] else []) ++
      (if p.companyCode = "" then ["companyCode"] else [])

/-- `validatePayload`: throws `Campos obligatorios faltantes: ...` listing
the missing fields joined by ", " when any required field is falsy. -/
def validatePayload (p : DianTokenEmailPayload) : Except String Unit :=
  if missingFields p = [] then .ok ()
  else .error ("Campos obligatorios faltantes: " ++
    String.intercalate ", " (missingFields p))

/-- `handle` of the token-email flow, abstracted over everything after the
browser is launched (`flowResult` stands for the outcome of
goto/form-fill/captcha/`waitForResultMessage`).  The first component
records whether `initializeBrowser` was reached: `validatePayload` runs
first, and its exception is converted by the `catch` block into the
failure result (no page exists yet, so no screenshot is attached). -/
def dianHandle (p : DianTokenEmailPayload) (flowResult : Except String String) :
    Bool × DianTokenEmailResult :=
  match validatePayload p with
  | .error msg =>
    (false,
      { success := false, message := none, error := some msg,
        origin := p.origin, screenshot := none })
  | .ok _ =>
    match flowResult with
    | .ok m =>
      (true,
        { success := true, message := some m, error := none,
          origin := p.origin, screenshot := none })
    | .error e =>
      (true,
        { success := false, message := none, error := some e,
          origin := p.origin, screenshot := none })

/-- The raw event of the `generate-dian-token-email` lambda handler: each
field either absent (`undefined`) or a string; `headless` is an arbitrary
JS value fed to `normalizeBoolean`. -/
structure DianTokenEvent where
  identificationType : Option String
  CompanyIdentificationType : Option String
  userCode : Option String
  UserCode : Option String
  companyCode : Option String
  CompanyCode : Option String
  origin : Option String
  headless : JsVal
deriving Repr, DecidableEq

/-- `normalizeBoolean` of the handler: `undefined`/`null`/`''` give the
default, booleans pass through, recognised string spellings map to their
boolean, anything else gives the default. -/
def normalizeBoolean (v : JsVal) (dflt : Bool) : Bool :=
  match v with
  | .undef => dflt
  | .nullv => dflt
  | .boolv b => b
  | .strv s =>
    if s = "" then dflt
    else
      let n := jsToLower (jsTrim s)
      if n = "true" || n = "1" || n = "yes" || n = "si" then true
      else if n = "false" || n = "0" || n = "no" then false
      else dflt

/-- JS nullish coalescing chain `a ?? b ?? ''` over two optional string
fields. -/
def coalesceField (a b : Option String) : String :=
  match a with
  | some s => s
  | none =>
    match b with
    | some s => s
    | none => ""

/-- The payload built by the `generate-dian-token-email` handler
(lambdas/generate-dian.token-email.ts): each required field is
`String(event.camelCase ?? event.PascalCase ?? '')`; `origin` is kept only
when truthy; `headless` defaults to `true`. -/
def dianTokenHandlerPayload (e : DianTokenEvent) : DianTokenEmailPayload :=
  { identificationType := coalesceField e.identificationType e.CompanyIdentificationType
    userCode := coalesceField e.userCode e.UserCode
    companyCode := coalesceField e.companyCode e.CompanyCode
    origin := jsTruthy e.origin
    headless := normalizeBoolean e.headless true }

/- ### RUES registry search (`get-rues-data`) -/

/-- The three record categories searched in order (`CONFIG.recordTypes`). -/
inductive RecordType
  | RM
  | ESAL
  | ESOL
deriving Repr, DecidableEq

/-- `CONFIG.recordTypes`: the fixed search order. -/
def recordTypes : List RecordType := [.RM, .ESAL, .ESOL]

/-- `CONFIG.mapRecords`: the label attached to a record found under each
category. -/
def mapRecords : RecordType → String
  | .RM => "Registro Mercantil"
  | .ESAL => "Entidades sin animo de lucro"
  | .ESOL => "Registro de entidades de economia solidaria"

/-- One `.card-result` element: the text of its `span`s (scanned by
`getCardStatusActive`), the optional `.filtro__titulo` text and the
`.registroapi` label/value pairs read by `extractBasicInfo`. -/
structure Card where
  spans : List String
  titulo : Option String
  registros : List (String × String)
deriving Repr, DecidableEq, Inhabited

/-- The detail view behind a card's result link: whether the general tab
rendered in time, and the content of the three tabs read by
`extractDetailedInfo`. -/
structure DetailPage where
  generalTabLoads : Bool
  generalTabPresent : Bool
  generalRecords : List (String × String)
  economicTabPresent : Bool
  economicRecords : List (String × String)
  legalText : Option String
deriving Repr, DecidableEq, Inhabited

/-- The page as one category's search sees it: whether a visible submit
button existed, whether the in-flight spinner disappeared within the 60s
wait (`enterIdentificationAndSubmit` returns `false` otherwise), the
no-results marker, the result cards and the detail view. -/
structure CategoryPage where
  submitButtonVisible : Bool
  spinnerClears : Bool
  noResultsShown : Bool
  cards : List Card
  detail : DetailPage
deriving Repr, DecidableEq, Inhabited

/-- `enterIdentificationAndSubmit`: `true` iff a visible submit button was
found and the in-flight spinner disappeared before the 60s timeout. -/
def enterIdentificationAndSubmit (p : CategoryPage) : Bool :=
  p.submitButtonVisible && p.spinnerClears

/-- `verifyResults`: `false` when the "No se encontraron resultados"
marker is shown, else `true` iff at least one `.card-result` exists. -/
def verifyResults (p : CategoryPage) : Bool :=
  if p.noResultsShown then false else decide (0 < p.cards.length)

/-- A card is "Activa" when one of its `span`s has trimmed text exactly
`"Activa"`. -/
def cardIsActiva (c : Card) : Bool :=
  c.spans.any (fun s => jsTrim s == "Activa")

/-- The scanning loop inside `getCardStatusActive`: index of the first
card with an "Activa" span. -/
def findActivaIdx : List Card → Option Nat
  | [] => none
  | c :: cs =>
    if cardIsActiva c then some 0
    else (findActivaIdx cs).map (· + 1)

/-- `getCardStatusActive`: the in-page script returns the first "Activa"
card's index, else the last index when any card exists, else `-1`; the
wrapper throws `Card no encontrada` on a negative index. -/
def getCardStatusActive (cards : List Card) : Except String Nat :=
  let cardIndex : Int :=
    match findActivaIdx cards with
    | some i => (i : Int)
    | none => if 0 < cards.length then (cards.length : Int) - 1 else -1
  if cardIndex < 0 then .error "Card no encontrada"
  else .ok cardIndex.toNat

/-- Fold one Spanish diacritic back to its base letter, as
`normalize("NFD").replace(/[̀-ͯ]/g, "")` does. -/
def foldDiacritic (c : Char) : Char :=
  if c = 'á' then 'a'
  else if c = 'é' then 'e'
  else if c = 'í' then 'i'
  else if c = 'ó' then 'o'
  else if c = 'ú' then 'u'
  else if c = 'ü' then 'u'
  else if c = 'ñ' then 'n'
  else c

/-- Collapse runs of underscores to a single underscore (`__+` → `_`). -/
def squeezeUnderscores (l : List Char) : List Char :=
  l.foldr (fun c acc =>
    if c = '_' && acc.head? = some '_' then acc else c :: acc) []

/-- `normalizeKey`: lowercase, strip diacritics, drop characters outside
`\w`/whitespace, turn whitespace runs into single underscores and collapse
repeats. -/
def normalizeKey (key : String) : String :=
  let lowered := (key.data.map foldDiacritic).map Char.toLower
  let kept := lowered.filter (fun c => c.isAlphanum || c = '_' || c = ' ')
  String.mk (squeezeUnderscores (kept.map (fun c => if c = ' ' then '_' else c)))

/-- `extractBasicInfo`'s in-page script, given the selected card index:
builds the summary record from the card title and its `.registroapi`
label/value pairs (keys normalized, values trimmed). -/
def basicInfoOfCard (c : Card) : List (String × String) :=
  let base :=
    match c.titulo with
    | some t => [("nombre", t)]
    | none => []
  c.registros.foldl
    (fun acc lv => objSet acc (normalizeKey (jsTrim lv.1)) (jsTrim lv.2)) base

/-- `extractBasicInfo`: select the card via `getCardStatusActive`, fail if
no result container exists, and build the summary record. -/
def extractBasicInfo (cards : List Card) : Except String (List (String × String)) :=
  match getCardStatusActive cards with
  | .error e => .error e
  | .ok i =>
    if cards.length = 0 then .error "No se encontró contenedor de resultados"
    else .ok (basicInfoOfCard (cards.getD i default))

/-- `getTabInformation`: label/value pairs of a tab, keys normalized and
values trimmed. -/
def getTabInformation (records : List (String × String)) : List (String × String) :=
  records.foldl
    (fun acc lv => objSet acc (normalizeKey (jsTrim lv.1)) (jsTrim lv.2)) []

/-- `extractDetailedInfo`: the general tab's record, the economic activity
list (trimmed, entries with empty code dropped; `[]` when the tab never
appears) and the legal-representative free text (`''` when absent). -/
def extractDetailedInfo (d : DetailPage) :
    List (String × String) × List (String × String) × String :=
  ( if d.generalTabPresent then getTabInformation d.generalRecords else []
  , if d.economicTabPresent then
      (d.economicRecords.map (fun p => (jsTrim p.1, jsTrim p.2))).filter
        (fun p => p.1 ≠ "")
    else []
  , (d.legalText.getD "") )

/-- The `RuesData` record assembled by `extractInformation` (the fields of
src/domain/rues/interfaces.ts that the code writes): `campos` carries the
whole summary record spread into the result object. -/
structure RuesData where
  nombre : String
  tipo_empresa : String
  campos : List (String × String)
  informacion_general : List (String × String)
  actividad_economica : List (String × String)
  representante_legal : String
deriving Repr, DecidableEq

/-- `extractInformation`: summary record, card selection, detail-tab wait
and detail extraction.  In the result literal `tipo_empresa: ''` is
written before `...basicInfo` spreads over it, so a page-displayed
`tipo_empresa` entry of the summary record wins over the `''`. -/
def extractInformation (p : CategoryPage) : Except String RuesData :=
  match extractBasicInfo p.cards with
  | .error e => .error e
  | .ok basicInfo =>
    match getCardStatusActive p.cards with
    | .error e => .error e
    | .ok _ =>
      if !p.detail.generalTabLoads then
        .error "No se pudo cargar la página de detalles"
      else
        let details := extractDetailedInfo p.detail
        .ok
          { nombre := (objGet basicInfo "nombre").getD ""
            tipo_empresa := (objGet basicInfo "tipo_empresa").getD ""
            campos := basicInfo
            informacion_general := details.1
            actividad_economica := details.2.1
            representante_legal := details.2.2 }

/-- The error codes the search attaches to its thrown errors. -/
inductive ErrCode
  | NOT_FOUND
  | API_ERROR
deriving Repr, DecidableEq

/-- An error as the lambda handler sees it: message plus the optional
`code` property (`none` for plain errors, mapped to `UNKNOWN_ERROR`/500). -/
structure SearchError where
  message : String
  code : Option ErrCode
deriving Repr, DecidableEq

/-- Message of the `API_ERROR` thrown when no category's API responded. -/
def apiErrorMsg (identification : String) : String :=
  "No se pudo consultar el documento " ++ identification ++
    ". La API de RUES no está respondiendo. Por favor intente más tarde."

/-- Message of the `NOT_FOUND` thrown when every category answered but
none had the record. -/
def notFoundMsg (identification : String) : String :=
  "Documento " ++ identification ++
    " no encontrado en ningún tipo de registro (RM, ESAL, ESOL)."

/-- The category loop of `searchByIdentification`, threading the
`allApisFailed` flag: a responding category with results short-circuits
with the extracted record, its `tipo_empresa` overwritten with the
category label; extraction failures propagate as plain (code-less)
errors. -/
def searchGo (env : RecordType → CategoryPage) (identification : String) :
    List RecordType → Bool → Except SearchError RuesData
  | [], allApisFailed =>
    if allApisFailed then
      .error { message := apiErrorMsg identification, code := some .API_ERROR }
    else
      .error { message := notFoundMsg identification, code := some .NOT_FOUND }
  | rt :: rest, allApisFailed =>
    if enterIdentificationAndSubmit (env rt) then
      if verifyResults (env rt) then
        match extractInformation (env rt) with
        | .ok r => .ok { r with tipo_empresa := mapRecords rt }
        | .error m => .error { message := m, code := none }
      else searchGo env identification rest false
    else searchGo env identification rest allApisFailed

/-- `searchByIdentification`: run the loop over RM, ESAL, ESOL with
`allApisFailed` initially `true`. -/
def searchByIdentification (env : RecordType → CategoryPage)
    (identification : String) : Except SearchError RuesData :=
  searchGo env identification recordTypes true

/-- The first category (in search order) that both answered and showed at
least one result card. -/
def firstFoundCategory (env : RecordType → CategoryPage) : Option RecordType :=
  recordTypes.find? (fun rt =>
    enterIdentificationAndSubmit (env rt) && verifyResults (env rt))

/-- The status-code mapping of the `get-rues-data` lambda handler's catch
block. -/
def statusForCode (code : Option ErrCode) : Nat :=
  match code with
  | some .NOT_FOUND => 404
  | some .API_ERROR => 503
  | none => 500

/-- `RuesPayload` after the handler's normalization. -/
structure RuesPayload where
  identificationNumber : String
  headless : Bool
deriving Repr, DecidableEq

/-- The raw `get-rues-data` event: both fields arbitrary JS values. -/
structure RuesEvent where
  identificationNumber : JsVal
  headless : JsVal
deriving Repr, DecidableEq

/-- The handler's payload normalization:
`String(event.identificationNumber)` (so an absent field becomes the
string `"undefined"`), and the headless ternary. -/
def ruesHandlerPayload (e : RuesEvent) : RuesPayload :=
  { identificationNumber := jsToString e.identificationNumber
    headless :=
      if e.headless = .boolv true || e.headless = .strv "true" ||
          e.headless = .undef then true
      else false }

/-- `handle` of the RUES flow with resource tracking: the first component
records whether `initializeBrowser` was reached.  The identification check
(`if (!payload.identificationNumber) throw ...`) runs before the browser
is launched and its error carries **no** `code` property. -/
def ruesHandle (env : RecordType → CategoryPage) (payload : RuesPayload) :
    Bool × Except SearchError RuesData :=
  if payload.identificationNumber = "" then
    (false, .error { message := "La identificación es requerida.", code := none })
  else
    (true, searchByIdentification env payload.identificationNumber)

/-- The `get-rues-data` lambda handler: normalize the event, run the flow,
map a success to 200 and an error to the status of its code.  Returns the
status code and whether a browser was launched. -/
def ruesLambda (env : RecordType → CategoryPage) (e : RuesEvent) : Nat × Bool :=
  let payload := ruesHandlerPayload e
  match ruesHandle env payload with
  | (acquired, .ok _) => (200, acquired)
  | (acquired, .error err) => (statusForCode err.code, acquired)

/-- An environment in which no category's API ever responds. -/
def envNoApi : RecordType → CategoryPage :=
  fun _ =>
    { submitButtonVisible := true
      spinnerClears := false
      noResultsShown := false
      cards := []
      detail := default }

/-- The counterexample tick with a persisted observer error added. -/
def witTick : DianTick := { cexTick with storedError := some "boom" }

/-- A result card whose status span reads "Activa". -/
def cardActivaW : Card := { spans := ["Activa"], titulo := none, registros := [] }

/-- A result card with a non-"Activa" status span. -/
def cardInactivaW : Card :=
  { spans := ["Cancelada"], titulo := none, registros := [] }

/-- An environment in which RM answers with no results and ESAL answers
with one "Activa" card whose summary fields display a company type of
their own. -/
def envFoundEsal : RecordType → CategoryPage
  | .RM =>
    { submitButtonVisible := true, spinnerClears := true,
      noResultsShown := true, cards := [], detail := default }
  | .ESAL =>
    { submitButtonVisible := true, spinnerClears := true,
      noResultsShown := false,
      cards := [{ spans := ["Activa"], titulo := some "ACME",
                  registros := [("Tipo Empresa", "Sociedad Limitada")] }],
      detail := { generalTabLoads := true, generalTabPresent := false,
                  generalRecords := [], economicTabPresent := false,
                  economicRecords := [], legalText := none } }
  | .ESOL =>
    { submitButtonVisible := true, spinnerClears := true,
      noResultsShown := true, cards := [], detail := default }

/-- The record `envFoundEsal` produces: the summary record displays
`tipo_empresa = "Sociedad Limitada"`, but the returned field is the ESAL
label. -/
def ruesDataEsal : RuesData :=
  { nombre := "ACME"
    tipo_empresa := "Entidades sin animo de lucro"
    campos := [("nombre", "ACME"), ("tipo_empresa", "Sociedad Limitada")]
    informacion_general := []
    actividad_economica := []
    representante_legal := "" }

/- ### Poll-loop lemmas -/

theorem pollGo_times (responses : Nat → PollStep) :
    ∀ fuel attempts now,
      (pollGo responses attempts now fuel).2 =
        (List.range (pollGo responses attempts now fuel).2.length).map
          (fun k => now + 7 * k) := by
  intro fuel
  induction fuel with
  | zero => intro attempts now; simp [pollGo]
  | succ f ih =>
    intro attempts now
    by_cases h : attempts < 15
    · cases hr : responses attempts with
      | okTok tok => simp [pollGo, h, hr, List.range_succ]
      | notReady =>
        simp only [pollGo, if_pos h, hr, List.length_cons]
        rw [List.range_succ_eq_map, List.map_cons, List.map_map]
        refine congrArg₂ List.cons (by omega) ?_
        rw [ih (attempts + 1) (now + 7)]
        simp only [List.length_map, List.length_range]
        apply List.map_congr_left
        intro a _
        simp only [Function.comp_apply]
        omega
      | errExn => simp [pollGo, h, hr, List.range_succ]
    · simp [pollGo, h]

theorem pollGo_length_le (responses : Nat → PollStep) :
    ∀ fuel attempts now, (pollGo responses attempts now fuel).2.length ≤ fuel := by
  intro fuel
  induction fuel with
  | zero => intro attempts now; simp [pollGo]
  | succ f ih =>
    intro attempts now
    by_cases h : attempts < 15
    · cases hr : responses attempts with
      | okTok tok => simp [pollGo, h, hr]
      | notReady =>
        simp only [pollGo, if_pos h, hr, List.length_cons]
        exact Nat.succ_le_succ (ih (attempts + 1) (now + 7))
      | errExn => simp [pollGo, h, hr]
    · simp [pollGo, h]

theorem pollGo_all_notReady (responses : Nat → PollStep) :
    ∀ fuel attempts now, attempts + fuel = 15 →
      (∀ k, attempts ≤ k → k < 15 → responses k = .notReady) →
      (pollGo responses attempts now fuel).1 = none ∧
        (pollGo responses attempts now fuel).2.length = fuel := by
  intro fuel
  induction fuel with
  | zero => intro attempts now _ _; simp [pollGo]
  | succ f ih =>
    intro attempts now hsum hall
    have hlt : attempts < 15 := by omega
    have hr : responses attempts = .notReady := hall attempts (Nat.le_refl _) hlt
    have ihr := ih (attempts + 1) (now + 7) (by omega)
      (fun k hk hk15 => hall k (by omega) hk15)
    simp only [pollGo, if_pos hlt, hr, List.length_cons]
    exact ⟨ihr.1, by rw [ihr.2]⟩

theorem pollGo_first_ok (responses : Nat → PollStep) :
    ∀ fuel attempts now k tok, attempts + fuel = 15 →
      attempts ≤ k → k < 15 →
      (∀ j, attempts ≤ j → j < k → responses j = .notReady) →
      responses k = .okTok tok →
      (pollGo responses attempts now fuel).1 = some tok := by
  intro fuel
  induction fuel with
  | zero => intro attempts now k tok hsum hak hk _ _; omega
  | succ f ih =>
    intro attempts now k tok hsum hak hk hpre hok
    have hlt : attempts < 15 := by omega
    rcases Nat.eq_or_lt_of_le hak with heq | hlt2
    · subst heq
      simp [pollGo, hlt, hok]
    · have hr : responses attempts = .notReady :=
        hpre attempts (Nat.le_refl _) hlt2
      simp only [pollGo, if_pos hlt, hr]
      exact ih (attempts + 1) (now + 7) k tok (by omega) hlt2 hk
        (fun j hj hjk => hpre j (by omega) hjk) hok

theorem pollGo_first_exn (responses : Nat → PollStep) :
    ∀ fuel attempts now k, attempts + fuel = 15 →
      attempts ≤ k → k < 15 →
      (∀ j, attempts ≤ j → j < k → responses j = .notReady) →
      responses k = .errExn →
      (pollGo responses attempts now fuel).1 = none ∧
        (pollGo responses attempts now fuel).2.length = k - attempts + 1 := by
  intro fuel
  induction fuel with
  | zero => intro attempts now k hsum hak hk _ _; omega
  | succ f ih =>
    intro attempts now k hsum hak hk hpre hexn
    have hlt : attempts < 15 := by omega
    rcases Nat.eq_or_lt_of_le hak with heq | hlt2
    · subst heq
      simp [pollGo, hlt, hexn]
    · have hr : responses attempts = .notReady :=
        hpre attempts (Nat.le_refl _) hlt2
      simp only [pollGo, if_pos hlt, hr, List.length_cons]
      have ihr := ih (attempts + 1) (now + 7) k (by omega) hlt2 hk
        (fun j hj hjk => hpre j (by omega) hjk) hexn
      exact ⟨ihr.1, by rw [ihr.2]; omega⟩

/- ### Claim C2 -/

/-- C2 counterexample: a poll-request exception does **not** behave as
"not yet ready" — with the first status poll throwing and the second
reporting the token, `solveCaptcha2Captcha` stops after one poll and
returns absent, while the behaviour the claim describes (exceptions
treated as "not ready") would have returned the token. -/
theorem solveCaptcha2Captcha_poll_exception_aborts :
    (solveCaptcha2Captcha cexTwoCaptchaEnv).1 = none ∧
    (solveCaptcha2Captcha cexTwoCaptchaEnv).2.length = 1 ∧
    cexTwoCaptchaEnv.responses 1 = PollStep.okTok "tok" ∧
    (solveCaptcha2Captcha
        { cexTwoCaptchaEnv with
            responses := exnAsNotReady cexTwoCaptchaEnv.responses }).1 =
      some "tok" :=
  ⟨rfl, rfl, rfl, rfl⟩

/-- C2 as amended: after a job identifier is received, status polls are
spaced 7 time-units apart for at most 15 attempts; a non-success status
payload is treated as "not yet ready"; but an **exception** on a poll
request aborts polling immediately and the solver returns absent without
using its remaining attempts. -/
theorem solveCaptcha2Captcha_polling_spec (env : TwoCaptchaEnv)
    (hsub : env.submitOk = true) :
    (solveCaptcha2Captcha env).2 =
      (List.range (solveCaptcha2Captcha env).2.length).map (fun k => 7 * k) ∧
    (solveCaptcha2Captcha env).2.length ≤ 15 ∧
    ((∀ k, k < 15 → env.responses k = .notReady) →
      (solveCaptcha2Captcha env).1 = none ∧
        (solveCaptcha2Captcha env).2.length = 15) ∧
    (∀ k tok, k < 15 → (∀ j, j < k → env.responses j = .notReady) →
      env.responses k = .okTok tok → (solveCaptcha2Captcha env).1 = some tok) ∧
    (∀ k, k < 15 → (∀ j, j < k → env.responses j = .notReady) →
      env.responses k = .errExn →
      (solveCaptcha2Captcha env).1 = none ∧
        (solveCaptcha2Captcha env).2.length = k + 1) := by
  have hs : solveCaptcha2Captcha env = pollGo env.responses 0 0 15 := by
    simp [solveCaptcha2Captcha, hsub]
  rw [hs]
  refine ⟨?_, ?_, ?_, ?_, ?_⟩
  · simpa using pollGo_times env.responses 15 0 0
  · exact pollGo_length_le env.responses 15 0 0
  · intro hall
    exact pollGo_all_notReady env.responses 15 0 0 rfl
      (fun k _ hk => hall k hk)
  · intro k tok hk hpre hok
    exact pollGo_first_ok env.responses 15 0 0 k tok rfl (Nat.zero_le _) hk
      (fun j _ hj => hpre j hj) hok
  · intro k hk hpre hexn
    simpa using pollGo_first_exn env.responses 15 0 0 k rfl (Nat.zero_le _) hk
      (fun j _ hj => hpre j hj) hexn

/-- Witness for the amended C2 theorem: with 2Captcha never reporting the
job complete, the solver polls all 15 times and returns absent. -/
theorem solveCaptcha2Captcha_polling_spec_witness :
    (solveCaptcha2Captcha
        { submitOk := true, responses := fun _ => PollStep.notReady }).1 = none ∧
    (solveCaptcha2Captcha
        { submitOk := true, responses := fun _ => PollStep.notReady }).2.length = 15 :=
  (solveCaptcha2Captcha_polling_spec
      { submitOk := true, responses := fun _ => PollStep.notReady } rfl).2.2.1
    (fun _ _ => rfl)

/- ### Claim C1 -/

/-- C1 counterexample: on a tick where a non-empty error-alert text (an
error signal in the claim's list) and a non-empty success message are
simultaneously present, `waitForResultMessage` returns the success
message — the success alert is read before the error-alert/toast
extraction. -/
theorem pollTick_toast_with_success_returns_success :
    claimErrorSignal cexTick = true ∧
    successMessage cexTick =
      some "Se ha enviado el código de acceso al correo registrado." ∧
    pollTick none cexTick =
      TickOutcome.success "Se ha enviado el código de acceso al correo registrado." := by
  refine ⟨by decide, by decide, by decide⟩

/-- C1 as amended: a persisted observer error, a live observer error or a
visible error modal makes the poll tick fail with that error message, even
when a success message is present simultaneously; but the error-alert/
toast signal is read only after the success check, so whenever none of the
three stronger signals is present, a non-empty success message is returned
even if error-alert/toast text is present in the same tick. -/
theorem pollTick_priority_amended (le : Option String) (t : DianTick) :
    (∀ e, strongErrorSignal t = some e → pollTick le t = .failure e) ∧
    (strongErrorSignal t = none →
      ∀ m, successMessage t = some m → pollTick le t = .success m) := by
  constructor
  · intro e h
    unfold strongErrorSignal at h
    unfold pollTick
    cases h1 : jsTruthy t.storedError with
    | some v =>
      simp only [h1] at h ⊢
      exact congrArg TickOutcome.failure (Option.some.inj h)
    | none =>
      simp only [h1] at h ⊢
      cases h2 : jsTruthy (t.modalState.bind (fun st => st.lastError)) with
      | some v =>
        simp only [h2] at h ⊢
        exact congrArg TickOutcome.failure (Option.some.inj h)
      | none =>
        simp only [h2] at h ⊢
        simp only [h]
  · intro h m hm
    unfold strongErrorSignal at h
    unfold pollTick
    cases h1 : jsTruthy t.storedError with
    | some v => simp only [h1] at h; exact Option.noConfusion h
    | none =>
      simp only [h1] at h ⊢
      cases h2 : jsTruthy (t.modalState.bind (fun st => st.lastError)) with
      | some v => simp only [h2] at h; exact Option.noConfusion h
      | none =>
        simp only [h2] at h ⊢
        simp only [h, hm]

/-- Witness for the amended C1 theorem: with a persisted observer error
present together with a non-empty success message, the tick fails with the
persisted error. -/
theorem pollTick_priority_amended_witness :
    pollTick none witTick = TickOutcome.failure "boom" :=
  (pollTick_priority_amended none witTick).1 "boom" (by decide)

/- ### Claim C8 -/

/-- A string guarded by a non-empty default is non-empty. -/
theorem ite_ne_empty (s d : String) (hd : d ≠ "") :
    (if s = "" then d else s) ≠ "" := by
  by_cases h : s = "" <;> simp [h, hd]

/-- `guardModalText` never produces the empty string: the generic fallback
fires when title and message are both empty. -/
theorem guardModalText_ne_empty (p : GuardPage) : guardModalText p ≠ "" := by
  unfold guardModalText
  exact ite_ne_empty _ _ (by decide)

/-- `setupOnce` only writes `modalState`, `storedError` and
`navIntercepted`, and recomputes them to the same values when run again on
its own output. -/
theorem setupOnce_idem (p : GuardPage) : setupOnce (setupOnce p) = setupOnce p := by
  by_cases h : guardModalVisible p = true
  · have h2 : guardModalVisible { p with
        modalState := some { lastError := some (guardModalText p), blockedRedirects := [] }
        storedError := some (guardModalText p)
        navIntercepted := true } = true := by
      simpa [guardModalVisible] using h
    have h3 : guardModalText { p with
        modalState := some { lastError := some (guardModalText p), blockedRedirects := [] }
        storedError := some (guardModalText p)
        navIntercepted := true } = guardModalText p := by
      simp [guardModalText]
    simp [setupOnce, h, h2, h3]
  · have h2 : guardModalVisible { p with
        modalState := some { lastError := jsTruthy p.storedError, blockedRedirects := [] }
        navIntercepted := true } = false := by
      simpa [guardModalVisible] using h
    simp [setupOnce, h, h2]

/-- Deferred `setup` listeners after the first collapse to one effective
run. -/
theorem setupIter_setupOnce (n : Nat) :
    ∀ q : GuardPage, setupIter n (setupOnce q) = setupOnce q := by
  induction n with
  | zero => intro q; rfl
  | succ m ih =>
    intro q
    show setupIter m (setupOnce (setupOnce q)) = setupOnce q
    rw [setupOnce_idem]
    exact ih q

/-- Any positive number of deferred `setup` runs has the effect of one. -/
theorem setupIter_succ (n : Nat) (q : GuardPage) :
    setupIter (n + 1) q = setupOnce q := by
  show setupIter n (setupOnce q) = setupOnce q
  exact setupIter_setupOnce n q

set_option maxRecDepth 8000 in
/-- C8: installing the `setupModalGuards` init script twice on the same
page yields, once the document has finished loading, exactly the page
state of installing it once — whether the marker short-circuits the second
run directly, or both runs were deferred to `DOMContentLoaded` and the
second `setup` recomputes the state the first one just produced. -/
theorem setupModalGuards_idempotent (p : GuardPage) :
    domContentLoaded (setupModalGuards (setupModalGuards p)) =
      domContentLoaded (setupModalGuards p) := by
  obtain ⟨ms, se, ni, lo, ps, mp, mdn, mhc, mah, mt, mm⟩ := p
  cases ms with
  | some st => rfl
  | none =>
    cases lo with
    | false =>
      by_cases h : (mp && ((!mdn || mhc) && !mah)) = true
      · simp [setupModalGuards, setupOnce, guardModalVisible, h]
      · simp [setupModalGuards, setupOnce, guardModalVisible, h]
    | true =>
      have e1 : ∀ q : GuardPage, setupIter (ps + 1) q = setupOnce q :=
        fun q => setupIter_succ ps q
      have e2 : ∀ q : GuardPage, setupIter (ps + 2) q = setupOnce q :=
        fun q => setupIter_succ (ps + 1) q
      by_cases h : (mp && ((!mdn || mhc) && !mah)) = true
      · simp [setupModalGuards, domContentLoaded, e1, e2, setupOnce,
          guardModalVisible, guardModalText, h]
      · simp [setupModalGuards, domContentLoaded, e1, e2, setupOnce,
          guardModalVisible, guardModalText, h]

/- ### Claim C5 -/

/-- C5: an input with any required field missing makes the token-email
flow return failure — whatever the rest of the flow would have produced —
with an error message listing exactly the missing field names, and the
browser is never launched; `missingFields` contains precisely the names of
the empty required fields. -/
theorem validatePayload_lists_all_missing_fields (p : DianTokenEmailPayload)
    (flowResult : Except String String) (h : missingFields p ≠ []) :
    dianHandle p flowResult =
      (false,
        { success := false, message := none,
          error := some ("Campos obligatorios faltantes: " ++
            String.intercalate ", " (missingFields p)),
          origin := p.origin, screenshot := none }) ∧
    (∀ f, f ∈ missingFields p ↔
      ((f = "identificationType" ∧ p.identificationType = "") ∨
        (f = "userCode" ∧ p.userCode = "") ∨
        (f = "companyCode" ∧ p.companyCode = ""))) := by
  constructor
  · simp [dianHandle, validatePayload, h]
  · intro f
    unfold missingFields
    by_cases h1 : p.identificationType = "" <;>
      by_cases h2 : p.userCode = "" <;>
        by_cases h3 : p.companyCode = "" <;>
          simp [h1, h2, h3]

/-- Witness for C5: the all-empty payload fails listing all three field
names, without reaching the browser. -/
theorem validatePayload_lists_all_missing_fields_witness :
    dianHandle
        { identificationType := "", userCode := "", companyCode := "",
          origin := none, headless := true } (Except.ok "x") =
      (false,
        { success := false, message := none,
          error := some ("Campos obligatorios faltantes: " ++
            String.intercalate ", "
              (missingFields
                { identificationType := "", userCode := "", companyCode := "",
                  origin := none, headless := true })),
          origin := none, screenshot := none }) :=
  (validatePayload_lists_all_missing_fields
      { identificationType := "", userCode := "", companyCode := "",
        origin := none, headless := true } (Except.ok "x") (by decide)).1

/- ### Claim C9 -/

/-- C9: the token-email lambda handler accepts the PascalCase aliases —
each payload field takes the camelCase event field when present, then the
PascalCase alias, then the empty string, so an event carrying only the
aliases produces the very same payload (and hence the same flow behaviour)
as one carrying the documented camelCase names. -/
theorem dianTokenHandler_pascal_aliases :
    (∀ (v1 v2 v3 : String) (o : Option String) (hv : JsVal),
      dianTokenHandlerPayload
        { identificationType := none, CompanyIdentificationType := some v1,
          userCode := none, UserCode := some v2,
          companyCode := none, CompanyCode := some v3,
          origin := o, headless := hv } =
      dianTokenHandlerPayload
        { identificationType := some v1, CompanyIdentificationType := none,
          userCode := some v2, UserCode := none,
          companyCode := some v3, CompanyCode := none,
          origin := o, headless := hv }) ∧
    (∀ (e : DianTokenEvent) (flowResult : Except String String),
      dianHandle (dianTokenHandlerPayload e) flowResult =
        dianHandle
          (dianTokenHandlerPayload
            { e with
                identificationType :=
                  match e.identificationType with
                  | some s => some s
                  | none => e.CompanyIdentificationType
                CompanyIdentificationType := none
                userCode :=
                  match e.userCode with
                  | some s => some s
                  | none => e.UserCode
                UserCode := none
                companyCode :=
                  match e.companyCode with
                  | some s => some s
                  | none => e.CompanyCode
                CompanyCode := none }) flowResult) ∧
    (∀ e : DianTokenEvent,
      (dianTokenHandlerPayload e).identificationType =
        (match e.identificationType with
          | some s => s
          | none =>
            match e.CompanyIdentificationType with
            | some s => s
            | none => "") ∧
      (dianTokenHandlerPayload e).userCode =
        (match e.userCode with
          | some s => s
          | none =>
            match e.UserCode with
            | some s => s
            | none => "") ∧
      (dianTokenHandlerPayload e).companyCode =
        (match e.companyCode with
          | some s => s
          | none =>
            match e.CompanyCode with
            | some s => s
            | none => "")) := by
  refine ⟨fun v1 v2 v3 o hv => rfl, ?_, fun e => ⟨rfl, rfl, rfl⟩⟩
  intro e flowResult
  have hp : dianTokenHandlerPayload e =
      dianTokenHandlerPayload
        { e with
            identificationType :=
              match e.identificationType with
              | some s => some s
              | none => e.CompanyIdentificationType
            CompanyIdentificationType := none
            userCode :=
              match e.userCode with
              | some s => some s
              | none => e.UserCode
            UserCode := none
            companyCode :=
              match e.companyCode with
              | some s => some s
              | none => e.CompanyCode
            CompanyCode := none } := by
    cases h1 : e.identificationType <;> cases h2 : e.userCode <;>
      cases h3 : e.companyCode <;>
        simp [dianTokenHandlerPayload, coalesceField, h1, h2, h3]
  rw [hp]

/- ### Card-selection lemmas -/

/-- An index found by the "Activa" scan is in range. -/
theorem findActivaIdx_lt_length :
    ∀ (cards : List Card) (i : Nat), findActivaIdx cards = some i →
      i < cards.length := by
  intro cards
  induction cards with
  | nil => intro i h; simp [findActivaIdx] at h
  | cons c cs ih =>
    intro i h
    by_cases hc : cardIsActiva c = true
    · simp [findActivaIdx, hc] at h
      simp only [List.length_cons]
      omega
    · simp [findActivaIdx, hc] at h
      obtain ⟨j, hj, hji⟩ := h
      have := ih j hj
      simp only [List.length_cons]
      omega

/-- The scan returns the first index whose card is "Activa". -/
theorem findActivaIdx_first :
    ∀ (cards : List Card) (i : Nat) (hi : i < cards.length),
      cardIsActiva cards[i] = true →
      (∀ j (hj : j < i), cardIsActiva cards[j] = false) →
      findActivaIdx cards = some i := by
  intro cards
  induction cards with
  | nil => intro i hi; simp at hi
  | cons c cs ih =>
    intro i hi hact hmin
    cases i with
    | zero =>
      simp only [List.getElem_cons_zero] at hact
      simp [findActivaIdx, hact]
    | succ i2 =>
      have hc : cardIsActiva c = false := by
        have := hmin 0 (Nat.succ_pos i2)
        simpa using this
      simp only [List.getElem_cons_succ] at hact
      have hrec := ih i2 (by simpa using Nat.lt_of_succ_lt_succ hi) hact
        (fun j hj => by
          have := hmin (j + 1) (Nat.succ_lt_succ hj)
          simpa using this)
      simp [findActivaIdx, hc, hrec]

/-- The scan fails exactly when no card is "Activa". -/
theorem findActivaIdx_none :
    ∀ cards : List Card,
      (∀ i (hi : i < cards.length), cardIsActiva cards[i] = false) →
      findActivaIdx cards = none := by
  intro cards
  induction cards with
  | nil => intro _; rfl
  | cons c cs ih =>
    intro hall
    have hc : cardIsActiva c = false := by
      have := hall 0 (Nat.succ_pos _)
      simpa using this
    have hrec := ih (fun i hi => by
      have := hall (i + 1) (Nat.succ_lt_succ hi)
      simpa using this)
    simp [findActivaIdx, hc, hrec]

/- ### Claim C7 -/

/-- C7: with at least one result card, the selected card is the first one
with an "Activa" status span; with no "Activa" card the last card is
selected; and the "Card no encontrada" error occurs exactly when there are
zero result cards. -/
theorem getCardStatusActive_selection_policy (cards : List Card) :
    (∀ i (hi : i < cards.length), cardIsActiva cards[i] = true →
      (∀ j (hj : j < i), cardIsActiva cards[j] = false) →
      getCardStatusActive cards = .ok i) ∧
    ((∀ i (hi : i < cards.length), cardIsActiva cards[i] = false) →
      cards ≠ [] → getCardStatusActive cards = .ok (cards.length - 1)) ∧
    (∀ e, getCardStatusActive cards = .error e ↔
      (cards = [] ∧ e = "Card no encontrada")) := by
  refine ⟨?_, ?_, ?_⟩
  · intro i hi hact hmin
    have hf := findActivaIdx_first cards i hi hact hmin
    simp [getCardStatusActive, hf]
  · intro hall hne
    have hf := findActivaIdx_none cards hall
    have hlen : 0 < cards.length := List.length_pos.mpr hne
    have hnn : ¬ ((cards.length : Int) - 1 < 0) := by omega
    have ht : ((cards.length : Int) - 1).toNat = cards.length - 1 := by omega
    simp [getCardStatusActive, hf, hlen, hnn, ht]
  · intro e
    cases cards with
    | nil =>
      constructor
      · intro h
        refine ⟨rfl, ?_⟩
        have := h
        simp [getCardStatusActive, findActivaIdx] at this
        exact this.symm
      · rintro ⟨-, rfl⟩
        rfl
    | cons c cs =>
      constructor
      · intro h
        exfalso
        cases hf : findActivaIdx (c :: cs) with
        | some i =>
          have hge : ¬ ((i : Int) < 0) := by omega
          simp [getCardStatusActive, hf, hge] at h
        | none =>
          have hge : ¬ ((cs.length : Int) < 0) := by omega
          simp [getCardStatusActive, hf, hge] at h
      · rintro ⟨h, -⟩
        cases h

/-- Witness for C7: with an inactive card before an "Activa" card, index 1
is selected. -/
theorem getCardStatusActive_selection_policy_witness :
    getCardStatusActive [cardInactivaW, cardActivaW] = .ok 1 :=
  (getCardStatusActive_selection_policy [cardInactivaW, cardActivaW]).1 1
    (by decide) (by decide) (by decide)

/- ### Claim C10 -/

/-- C10: whenever at least one result card exists, `getCardStatusActive`
returns an index strictly below the number of cards (so the `nth` card
selection that follows never goes out of range), and the "Card no
encontrada" error can only occur on a page with zero result cards. -/
theorem getCardStatusActive_index_in_range :
    (∀ cards : List Card, cards ≠ [] →
      ∃ i, getCardStatusActive cards = .ok i ∧ i < cards.length) ∧
    (∀ (cards : List Card) (e : String),
      getCardStatusActive cards = .error e → cards = []) := by
  constructor
  · intro cards hne
    cases hf : findActivaIdx cards with
    | some i =>
      refine ⟨i, ?_, findActivaIdx_lt_length cards i hf⟩
      simp [getCardStatusActive, hf]
    | none =>
      have hlen : 0 < cards.length := List.length_pos.mpr hne
      have hnn : ¬ ((cards.length : Int) - 1 < 0) := by omega
      have ht : ((cards.length : Int) - 1).toNat = cards.length - 1 := by omega
      refine ⟨cards.length - 1, ?_, by omega⟩
      simp [getCardStatusActive, hf, hlen, hnn, ht]
  · intro cards e h
    cases cards with
    | nil => rfl
    | cons c cs =>
      exfalso
      cases hf : findActivaIdx (c :: cs) with
      | some i =>
        have hge : ¬ ((i : Int) < 0) := by omega
        simp [getCardStatusActive, hf, hge] at h
      | none =>
        have hge : ¬ ((cs.length : Int) < 0) := by omega
        simp [getCardStatusActive, hf, hge] at h

/-- Witness for C10: a single card (with no "Activa" span) yields index 0,
in range. -/
theorem getCardStatusActive_index_in_range_witness :
    ∃ i, getCardStatusActive [cardInactivaW] = .ok i ∧
      i < [cardInactivaW].length :=
  getCardStatusActive_index_in_range.1 [cardInactivaW] (by decide)

/- ### Search-loop lemmas -/

/-- If the loop ends in `NOT_FOUND` then either `allApisFailed` came in
`false` or some remaining category answered, and every remaining category
that answered had no results. -/
theorem searchGo_notFound_inv (env : RecordType → CategoryPage)
    (identification : String) :
    ∀ (l : List RecordType) (af : Bool) (err : SearchError),
      searchGo env identification l af = .error err →
      err.code = some ErrCode.NOT_FOUND →
      (af = false ∨ ∃ rt ∈ l, enterIdentificationAndSubmit (env rt) = true) ∧
      (∀ rt ∈ l, enterIdentificationAndSubmit (env rt) = true →
        verifyResults (env rt) = false) := by
  intro l
  induction l with
  | nil =>
    intro af err h hc
    cases af with
    | true =>
      exfalso
      simp only [searchGo, if_true] at h
      injection h with h2
      rw [← h2] at hc
      simp at hc
    | false =>
      exact ⟨Or.inl rfl, by intro rt hrt; simp at hrt⟩
  | cons rt rest ih =>
    intro af err h hc
    by_cases he : enterIdentificationAndSubmit (env rt) = true
    · by_cases hv : verifyResults (env rt) = true
      · exfalso
        simp only [searchGo, he, hv, if_true] at h
        cases hx : extractInformation (env rt) with
        | ok r => rw [hx] at h; cases h
        | error m =>
          rw [hx] at h
          cases h
          simp at hc
      · have h2 : searchGo env identification rest false = .error err := by
          simpa [searchGo, he, hv] using h
        obtain ⟨_, hrest⟩ := ih false err h2 hc
        refine ⟨Or.inr ⟨rt, List.mem_cons_self rt rest, he⟩, ?_⟩
        intro rt2 hrt2 he2
        rcases List.mem_cons.mp hrt2 with heq | hmem
        · subst heq
          exact Bool.not_eq_true _ ▸ (Bool.eq_false_iff.mpr hv)
        · exact hrest rt2 hmem he2
    · have h2 : searchGo env identification rest af = .error err := by
        simpa [searchGo, he] using h
      obtain ⟨hsome, hrest⟩ := ih af err h2 hc
      refine ⟨?_, ?_⟩
      · rcases hsome with haf | ⟨rt2, hmem, he2⟩
        · exact Or.inl haf
        · exact Or.inr ⟨rt2, List.mem_cons_of_mem _ hmem, he2⟩
      · intro rt2 hrt2 he2
        rcases List.mem_cons.mp hrt2 with heq | hmem
        · subst heq; exact absurd he2 he
        · exact hrest rt2 hmem he2

/-- A successful search returns the record of the first category that
answered with results, with `tipo_empresa` set to that category's label. -/
theorem searchGo_ok_tipo (env : RecordType → CategoryPage)
    (identification : String) :
    ∀ (l : List RecordType) (af : Bool) (d : RuesData),
      searchGo env identification l af = .ok d →
      ∃ rt, l.find? (fun rt =>
          enterIdentificationAndSubmit (env rt) && verifyResults (env rt)) =
        some rt ∧ d.tipo_empresa = mapRecords rt := by
  intro l
  induction l with
  | nil => intro af d h; cases af <;> simp [searchGo] at h
  | cons rt rest ih =>
    intro af d h
    by_cases he : enterIdentificationAndSubmit (env rt) = true
    · by_cases hv : verifyResults (env rt) = true
      · refine ⟨rt, ?_, ?_⟩
        · simp [List.find?, he, hv]
        · simp only [searchGo, he, hv, if_true] at h
          cases hx : extractInformation (env rt) with
          | ok r =>
            rw [hx] at h
            cases h
            rfl
          | error m => rw [hx] at h; cases h
      · have h2 : searchGo env identification rest false = .ok d := by
          simpa [searchGo, he, hv] using h
        obtain ⟨rt2, hf, ht⟩ := ih false d h2
        refine ⟨rt2, ?_, ht⟩
        have hp : (enterIdentificationAndSubmit (env rt) &&
            verifyResults (env rt)) = false := by
          simp [he, hv]
        simp [List.find?, hp, hf]
    · have h2 : searchGo env identification rest af = .ok d := by
        simpa [searchGo, he] using h
      obtain ⟨rt2, hf, ht⟩ := ih af d h2
      refine ⟨rt2, ?_, ht⟩
      have hp : (enterIdentificationAndSubmit (env rt) &&
          verifyResults (env rt)) = false := by
        simp [he]
      simp [List.find?, hp, hf]

/- ### Claim C3 -/

/-- C3: when the in-flight spinner fails to clear for all three
categories, the search throws the `API_ERROR` error (mapped to 503, never
404); and a `NOT_FOUND` error is thrown only when at least one category's
API responded and no responding category showed results. -/
theorem searchByIdentification_api_error_priority
    (env : RecordType → CategoryPage) (identification : String) :
    ((∀ rt, (env rt).spinnerClears = false) →
      searchByIdentification env identification =
        .error { message := apiErrorMsg identification,
                 code := some ErrCode.API_ERROR } ∧
      statusForCode (some ErrCode.API_ERROR) = 503 ∧
      statusForCode (some ErrCode.API_ERROR) ≠ 404) ∧
    (∀ err, searchByIdentification env identification = .error err →
      err.code = some ErrCode.NOT_FOUND →
      (∃ rt, enterIdentificationAndSubmit (env rt) = true) ∧
      (∀ rt, enterIdentificationAndSubmit (env rt) = true →
        verifyResults (env rt) = false)) := by
  constructor
  · intro hall
    have he : ∀ rt, enterIdentificationAndSubmit (env rt) = false := by
      intro rt
      simp [enterIdentificationAndSubmit, hall rt]
    refine ⟨?_, rfl, by decide⟩
    simp [searchByIdentification, recordTypes, searchGo, he]
  · intro err h hc
    obtain ⟨hsome, hall⟩ :=
      searchGo_notFound_inv env identification recordTypes true err h hc
    constructor
    · rcases hsome with haf | ⟨rt, _, he⟩
      · cases haf
      · exact ⟨rt, he⟩
    · intro rt he
      have hmem : rt ∈ recordTypes := by cases rt <;> simp [recordTypes]
      exact hall rt hmem he

/-- Witness for C3: in an environment where no category's spinner ever
clears, the flow fails with `API_ERROR`, which maps to 503. -/
theorem searchByIdentification_api_error_priority_witness :
    searchByIdentification envNoApi "900123456" =
      .error { message := apiErrorMsg "900123456",
               code := some ErrCode.API_ERROR } ∧
    statusForCode (some ErrCode.API_ERROR) = 503 ∧
    statusForCode (some ErrCode.API_ERROR) ≠ 404 :=
  (searchByIdentification_api_error_priority envNoApi "900123456").1
    (fun _ => rfl)

/- ### Claim C4 -/

/-- C4: every record returned by the search carries as `tipo_empresa` the
label of the (first answering-with-results) category it was found under —
the page-displayed company type extracted into the summary record is
overwritten. -/
theorem searchByIdentification_tipo_empresa_override
    (env : RecordType → CategoryPage) (identification : String) (d : RuesData)
    (h : searchByIdentification env identification = .ok d) :
    ∃ rt, firstFoundCategory env = some rt ∧
      d.tipo_empresa = mapRecords rt :=
  searchGo_ok_tipo env identification recordTypes true d h

/-- Witness for C4: the search finds the record under ESAL and `tipo_empresa`
is the ESAL label even though the page displayed "Sociedad Limitada"
(which remains visible in the summary record `campos`). -/
theorem searchByIdentification_tipo_empresa_override_witness :
    ∃ rt, firstFoundCategory envFoundEsal = some rt ∧
      ruesDataEsal.tipo_empresa = mapRecords rt :=
  searchByIdentification_tipo_empresa_override envFoundEsal "900123456"
    ruesDataEsal rfl

/- ### Claim C6 -/

/-- C6 counterexample: the empty identification fails *before* a browser
is acquired but surfaces as status 500 (the validation error carries no
code), not as a 4xx; and an event with the field entirely absent is
coerced by `String(undefined)` to `"undefined"`, passes validation, and a
browser **is** acquired. -/
theorem ruesLambda_validation_not_4xx :
    (ruesLambda envNoApi
        { identificationNumber := JsVal.strv "", headless := JsVal.undef }).1 =
      500 ∧
    ¬ (400 ≤ (ruesLambda envNoApi
          { identificationNumber := JsVal.strv "",
            headless := JsVal.undef }).1 ∧
        (ruesLambda envNoApi
          { identificationNumber := JsVal.strv "",
            headless := JsVal.undef }).1 < 500) ∧
    (ruesLambda envNoApi
        { identificationNumber := JsVal.undef, headless := JsVal.undef }).2 =
      true := by
  refine ⟨by decide, ?_, by decide⟩
  intro hcon
  have h1 : (ruesLambda envNoApi
      { identificationNumber := JsVal.strv "", headless := JsVal.undef }).1 =
    500 := by decide
  omega

/-- C6 as amended: an **empty** `identificationNumber` fails with the
validation message before any browser resource is acquired, but the error
carries no code and is surfaced as 500 (`UNKNOWN_ERROR`), not 4xx; a
**missing** field is coerced to the literal string `"undefined"`, passes
validation, and the browser is acquired. -/
theorem ruesLambda_validation_amended (env : RecordType → CategoryPage)
    (hv : JsVal) :
    ruesHandle env { identificationNumber := "", headless := true } =
      (false,
        .error { message := "La identificación es requerida.", code := none }) ∧
    (ruesLambda env
        { identificationNumber := JsVal.strv "", headless := hv }).1 = 500 ∧
    (ruesLambda env
        { identificationNumber := JsVal.strv "", headless := hv }).2 = false ∧
    (ruesHandlerPayload
        { identificationNumber := JsVal.undef,
          headless := hv }).identificationNumber = "undefined" ∧
    (ruesLambda env
        { identificationNumber := JsVal.undef, headless := hv }).2 = true := by
  refine ⟨rfl, ?_, ?_, rfl, ?_⟩
  · simp [ruesLambda, ruesHandle, ruesHandlerPayload, jsToString, statusForCode]
  · simp [ruesLambda, ruesHandle, ruesHandlerPayload, jsToString]
  · have hne : jsToString JsVal.undef ≠ "" := by decide
    simp only [ruesLambda, ruesHandle, ruesHandlerPayload]
    simp only [jsToString]
    cases hs : searchByIdentification env "undefined" with
    | ok d => simp [hs]
    | error e => simp [hs]
